import Mathlib

/-!
Verification of `vmware_to_virt.py` (class `VMwareToVirtConverter` and its `main`
driver) against its natural-language specification.

The embedding models the program at the text/byte level: file contents are byte
lists (`List Nat`, one entry per byte; the files the checks target are ASCII
descriptor text, so the byte-for-byte reads `f.read(512)` and `f.read(1024)`
are modelled as `List.take` on the content).  Every external-process observation
(`fdisk -l`, `file -s`, `qemu-img info`, `qemu-img convert`, `cp`) is an oracle
field recorded per source file or in the environment, classified exactly by the
predicates the Python code applies to the tool output.
-/

namespace VmwareToVirt

/-- Decidable equality for `Except`, so closed runs of the embedded pipeline
can be settled by `decide`. -/
instance instDecEqExcept {ε α : Type} [DecidableEq ε] [DecidableEq α] :
    DecidableEq (Except ε α) := fun x y =>
  match x, y with
  | .error a, .error b =>
    if h : a = b then .isTrue (by rw [h])
    else .isFalse (fun hc => h (Except.error.inj hc))
  | .error _, .ok _ => .isFalse (fun hc => Except.noConfusion hc)
  | .ok _, .error _ => .isFalse (fun hc => Except.noConfusion hc)
  | .ok a, .ok b =>
    if h : a = b then .isTrue (by rw [h])
    else .isFalse (fun hc => h (Except.ok.inj hc))

/-- Boolean success test on an `Except` value. -/
def exceptIsOk {ε α : Type} : Except ε α → Bool
  | .ok _ => true
  | .error _ => false

/-- Bytes of an ASCII string literal, used to state the tokens the source
searches for (`'createType' in header`, etc.). -/
def strBytes (s : String) : List Nat := s.data.map Char.toNat

/-- Boolean test that `tok` occurs at the very start of `s` (helper for
substring search). -/
def leadsWith : List Nat → List Nat → Bool
  | [], _ => true
  | _ :: _, [] => false
  | a :: as, b :: bs => (a == b) && leadsWith as bs

/-- Boolean substring test: Python's `tok in s` on the byte strings the
converter reads. -/
def tokIn (tok : List Nat) : List Nat → Bool
  | [] => tok.isEmpty
  | b :: rest => leadsWith tok (b :: rest) || tokIn tok rest

/-- Token `createType` (vmware_to_virt.py line 54, 136). -/
def createTypeTok : List Nat := strBytes "createType"

/-- Token `parentFileNameHint` (lines 54, 79). -/
def parentHintTok : List Nat := strBytes "parentFileNameHint"

/-- Token `VMDK` (line 136). -/
def vmdkTok : List Nat := strBytes "VMDK"

/-- Classification of the `file -s` output on a source disk, per the predicates
at lines 157-160: a boot-sector/filesystem mention, the bare `data` result,
any other output, or the subprocess call itself raising. -/
inductive SniffKind where
  | bootOrFs
  | dataOnly
  | other
  | sniffRaises
  deriving DecidableEq

/-- One `.vmdk` file of the input directory together with the oracle outcomes
of every external probe the converter runs against it (and against the
converted output `stem.qcow2` derived from it).

  * `content`      : the file bytes (ASCII-level model of the text reads);
  * `readable`     : the tolerant reads succeed (lines 50, 77: binary read and
                     `errors='ignore'` text read);
  * `strictDecodeOk` : the strict UTF-8 read at line 134 succeeds;
  * `fdiskRaises` / `fdiskHasTable` : the source `fdisk -l` probe at lines
                     122-126 (table = `Disklabel type:` or `Device` in stdout);
  * `sniff`        : the source `file -s` probe at lines 153-160;
  * `infoOk` / `infoFormat` : the `qemu-img info` call at lines 224-230
                     (`check=True`; missing `format` key defaults to `vmdk`);
  * `convVmdkTagOk` / `convRawTagOk` / `convOtherTagOk` : whether
                     `qemu-img convert -f <tag>` succeeds at tag `vmdk`,
                     `raw`, or the otherwise-detected format;
  * `outFdiskRaises` / `outFdiskHasTable` : the post-conversion `fdisk -l`
                     probe at lines 283-287;
  * `outSniffRaises` / `outSniffDOS` : the post-conversion `file -s` probe at
                     lines 305-309 (`DOS/MBR boot sector` or `Microsoft`);
  * `outResolved`  : `str(output_path.resolve())` (line 421);
  * `outExistsAtGen` : `disk_file.exists()` at XML-generation time (line 422). -/
structure VFile where
  stem : String
  content : List Nat
  readable : Bool
  strictDecodeOk : Bool
  fdiskRaises : Bool
  fdiskHasTable : Bool
  sniff : SniffKind
  infoOk : Bool
  infoFormat : Option String
  convVmdkTagOk : Bool
  convRawTagOk : Bool
  convOtherTagOk : Bool
  outFdiskRaises : Bool
  outFdiskHasTable : Bool
  outSniffRaises : Bool
  outSniffDOS : Bool
  outResolved : String
  outExistsAtGen : Bool
  deriving DecidableEq

/-- The 512-byte header read `f.read(512)` at line 51. -/
def hdr (f : VFile) : List Nat := f.content.take 512

/-- Line 54: a readable file goes to `descriptor_files` when its 512-byte
header contains `createType` or `parentFileNameHint`; an unreadable file goes
to `data_files` (lines 59-61). -/
def classifyDesc (f : VFile) : Bool :=
  f.readable && (tokIn createTypeTok (hdr f) || tokIn parentHintTok (hdr f))

/-- Fatal error taxonomy of the run, named after the specification's labels;
each constructor notes the Python exception it stands for. -/
inductive CErr where
  /-- Line 41: `FileNotFoundError` — no `.vmdk` files found. -/
  | discoveryFailure
  /-- Line 92: `FileNotFoundError` — no valid VMDK files for conversion. -/
  | noConvertibleDisks
  /-- Lines 206-210: `RuntimeError` — `qemu-img` not installed. -/
  | qemuMissing
  /-- Lines 275-277: `RuntimeError` — a disk conversion failed. -/
  | conversionFailed
  /-- Line 423: `FileNotFoundError` — converted disk vanished before XML. -/
  | diskPathMissing
  /-- Line 434: `ValueError` from `int(...)` on a present `memsize` value. -/
  | memsizeValueError
  deriving DecidableEq

/-- `identify_disk_structure` (lines 36-63): raise if the directory holds no
`.vmdk` files, else split them into `descriptor_files` and `data_files` in
discovery order. -/
def identify_disk_structure (vmdks : List VFile) :
    Except CErr (List VFile × List VFile) :=
  if vmdks.isEmpty then .error .discoveryFailure
  else .ok (vmdks.filter classifyDesc, vmdks.filter (fun f => !classifyDesc f))

/-- `get_disk_conversion_targets` (lines 65-94): if any descriptor file exists,
the targets are the readable descriptors whose full text lacks
`parentFileNameHint` (line 79); only when no descriptor file exists at all do
the data files become the targets (line 88); empty result raises (line 92). -/
def get_disk_conversion_targets (vmdks : List VFile) :
    Except CErr (List VFile) :=
  match identify_disk_structure vmdks with
  | .error e => .error e
  | .ok (descs, datas) =>
    let targets :=
      if descs.isEmpty then datas
      else descs.filter (fun d => d.readable && !tokIn parentHintTok d.content)
    if targets.isEmpty then .error .noConvertibleDisks else .ok targets

/-- The descriptor check inside validation (lines 133-138): strict-UTF-8 read
of the first 1 KB containing both `createType` and `VMDK`. -/
def looksLikeSplitDescriptor (f : VFile) : Bool :=
  f.readable && f.strictDecodeOk &&
    tokIn createTypeTok (f.content.take 1024) &&
    tokIn vmdkTok (f.content.take 1024)

/-- Line 142: a validation error is recorded for a `.vmdk` exactly when its
`fdisk` probe ran, found no partition table, and the file does not look like a
split-disk descriptor. -/
def isValidationError (f : VFile) : Bool :=
  !f.fdiskRaises && !f.fdiskHasTable && !looksLikeSplitDescriptor f

/-- Environment of one run: directory facts and VM-level oracles.

  * `vmxStems` : stems of the `*.vmx` files (line 27);
  * `vmdks`    : the `*.vmdk` files in discovery order (lines 38, 104, 114);
  * `vmemCount` / `vmssCount` : `*.vmem` / `*.vmss` counts (lines 104-105);
  * `outputDirPreexists` / `outputDirNonempty` / `userConfirms` : the
    `create_output_structure` branch at lines 453-458;
  * `qemuAvailable` : the `qemu-img --version` check at lines 204-210;
  * `cpOk` : the backup `cp` at line 314 succeeds;
  * `tmpWriteOk` : the script write at lines 325-326 succeeds;
  * `vmxConfig` : the parsed VMX key/value mapping (later bindings win). -/
structure Env where
  inputDirExists : Bool
  inputIsDir : Bool
  vmxStems : List String
  vmdks : List VFile
  vmemCount : Nat
  vmssCount : Nat
  outputDirPreexists : Bool
  outputDirNonempty : Bool
  userConfirms : Bool
  qemuAvailable : Bool
  cpOk : Bool
  tmpWriteOk : Bool
  vmxConfig : List (String × String)
  deriving DecidableEq

/-- `validate_vmware_vm` (lines 96-197): returns `False` — aborting the run —
exactly when the `validation_errors` list is non-empty (lines 172-190);
warnings (lines 107-111, 145, 160, 163) are only printed and never make the
function return `False`. -/
def validate_vmware_vm (env : Env) : Bool :=
  !(env.vmdks.any isValidationError)

/-- The suspend/crash warning signals of lines 107-111: memory-dump (`.vmem`)
or snapshot-state (`.vmss`) files present. -/
def suspendSignals (env : Env) : Bool :=
  decide (0 < env.vmemCount) || decide (0 < env.vmssCount)

/-- Warning recorded by the signature-probe loop (lines 148-163) for one file:
files of at least 1024 bytes whose sniff is the bare `data` result or whose
probe raised. -/
def sniffWarn (f : VFile) : Bool :=
  decide (1024 ≤ f.content.length) &&
    (f.sniff == SniffKind.dataOnly || f.sniff == SniffKind.sniffRaises)

/-- Whether the `warnings` list of `validate_vmware_vm` is non-empty. -/
def hasWarnings (env : Env) : Bool :=
  suspendSignals env || env.vmdks.any (fun f => f.fdiskRaises) ||
    env.vmdks.any sniffWarn

/-- Observable side effects of `verify_converted_disk` and
`attempt_boot_sector_fix` (lines 279-344): the read-only `file -s` probe, the
`cp` backup copy, the `/tmp` script write, and user-facing messages. -/
inductive FixEffect where
  | sniffCmd (target : String)
  | copyFile (src dst : String)
  | writeFile (path : String)
  | echoMsg (tag : String)
  deriving DecidableEq

/-- Whether an effect writes to the given path: `cp` writes its destination,
the script write writes its file; probes and messages write nothing. -/
def writesPath : FixEffect → String → Bool
  | .copyFile _ dst, p => dst == p
  | .writeFile path, p => path == p
  | .sniffCmd _, _ => false
  | .echoMsg _, _ => false

/-- `attempt_boot_sector_fix` (lines 298-344): re-run the sniffer; on a
DOS/Windows boot-sector result, `cp` a `.backup` copy of the image and write a
`/tmp/testdisk_script.txt` advisory script, then echo repair instructions;
always return `False`.  Any exception (sniffer, `cp`) is caught at line 342;
a failing script write is caught at line 334. -/
def attempt_boot_sector_fix (env : Env) (p : String) (f : VFile) :
    Bool × List FixEffect :=
  if f.outSniffRaises then
    (false, [.echoMsg "attemptingRepair", .echoMsg "repairFailed"])
  else
    let pre : List FixEffect := [.echoMsg "attemptingRepair", .sniffCmd p]
    if f.outSniffDOS then
      if env.cpOk then
        let base := pre ++
          [.echoMsg "dosDetected", .copyFile p (p ++ ".backup")]
        if env.tmpWriteOk then
          (false, base ++
            [.writeFile "/tmp/testdisk_script.txt",
             .echoMsg "manualRepairNeeded", .echoMsg "backupAt",
             .echoMsg "suggestTools"])
        else
          (false, base ++ [.echoMsg "autoRepairFailed"])
      else
        (false, pre ++ [.echoMsg "dosDetected", .echoMsg "repairFailed"])
    else
      (false, pre ++ [.echoMsg "cannotDetect"])

/-- `verify_converted_disk` (lines 279-296): `fdisk -l` the converted image;
a recognized label passes, otherwise hand over to the repair advisor; a probe
exception is caught at line 294 and merely reported. -/
def verify_converted_disk (env : Env) (p : String) (f : VFile) :
    Bool × List FixEffect :=
  if f.outFdiskRaises then (false, [.echoMsg "couldNotVerify"])
  else if f.outFdiskHasTable then (true, [.echoMsg "tableDetected"])
  else attempt_boot_sector_fix env p f

/-- One converted disk: source stem, output name `stem.qcow2` (line 218), the
`-f` tags of the conversion attempts actually run, the (ignored) verification
result and its effects, and the generation-time facts about the output file. -/
structure ConvertedDisk where
  srcStem : String
  outPath : String
  attempts : List String
  verified : Bool
  fixEffects : List FixEffect
  outResolved : String
  outExistsAtGen : Bool
  deriving DecidableEq

/-- Success of `qemu-img convert -f <tag>` on this source, keyed by the tag the
code passes (lines 240-245 tag `vmdk`, lines 251-256 tag `raw`, lines 262-267
the detected format). -/
def convOkTag (f : VFile) (tag : String) : Bool :=
  if tag == "vmdk" then f.convVmdkTagOk
  else if tag == "raw" then f.convRawTagOk
  else f.convOtherTagOk

/-- The raw-format strategy (lines 235-259): try tag `vmdk` first, fall back
to tag `raw` once; `none` means both attempts raised. -/
def rawAttempts (f : VFile) : Option (List String) :=
  if convOkTag f "vmdk" then some ["vmdk"]
  else if convOkTag f "raw" then some ["vmdk", "raw"]
  else none

/-- Attempt tags actually run for one target (lines 230-267): detected format
defaults to `vmdk` when the info hint is missing; `raw` gets the two-step
strategy, anything else a single attempt at the detected tag. -/
def convAttempts (f : VFile) : Option (List String) :=
  let fmt := f.infoFormat.getD "vmdk"
  if fmt == "raw" then rawAttempts f
  else if convOkTag f fmt then some [fmt] else none

/-- Conversion of one target (lines 217-277): a failing `qemu-img info`
(`check=True`) or a failed final attempt becomes the fatal `ConversionFailed`
(lines 275-277); on success the converted disk is verified (result ignored,
line 270) and recorded (line 272). -/
def convertOne (env : Env) (f : VFile) : Except CErr ConvertedDisk :=
  if !f.infoOk then .error .conversionFailed
  else
    match convAttempts f with
    | none => .error .conversionFailed
    | some atts =>
      let out := f.stem ++ ".qcow2"
      let v := verify_converted_disk env out f
      .ok { srcStem := f.stem, outPath := out, attempts := atts,
            verified := v.1, fixEffects := v.2,
            outResolved := f.outResolved, outExistsAtGen := f.outExistsAtGen }

/-- The conversion loop of lines 217-277 over all targets in order, stopping
at the first fatal error. -/
def convertAll (env : Env) : List VFile → Except CErr (List ConvertedDisk)
  | [] => .ok []
  | f :: rest =>
    match convertOne env f with
    | .error e => .error e
    | .ok d =>
      match convertAll env rest with
      | .error e => .error e
      | .ok ds => .ok (d :: ds)

/-- `convert_disk_images` (lines 199-277): check `qemu-img` availability, pick
the conversion targets, convert them in order. -/
def convert_disk_images (env : Env) : Except CErr (List ConvertedDisk) :=
  if !env.qemuAvailable then .error .qemuMissing
  else
    match get_disk_conversion_targets env.vmdks with
    | .error e => .error e
    | .ok ts => convertAll env ts

/-- One `<disk>` element of the generated domain XML (lines 426-430): target
device name and the `source file` attribute. -/
structure DiskEntry where
  dev : String
  sourceFile : String
  deriving DecidableEq

/-- The generated domain descriptor, reduced to the fields the template
computes (lines 433-437): memory in KiB, the vCPU string, and the disk
elements in order. -/
structure LibvirtDomain where
  memoryKb : Int
  vcpus : String
  diskEntries : List DiskEntry
  deriving DecidableEq

/-- The disk-XML loop of lines 418-431: entry `i` gets device
`hd` + `chr(97 + i)` and the resolved output path; a missing output raises
`FileNotFoundError` at the first offender (line 423). -/
def genDiskEntries : List ConvertedDisk → Nat → Except CErr (List DiskEntry)
  | [], _ => .ok []
  | d :: rest, i =>
    if d.outExistsAtGen then
      match genDiskEntries rest (i + 1) with
      | .error e => .error e
      | .ok es =>
        .ok ({ dev := "hd".push (Char.ofNat (97 + i)),
               sourceFile := d.outResolved } :: es)
    else .error .diskPathMissing

/-- Python `dict` lookup on the parsed VMX mapping: the last binding of a key
wins (`parse_vmx_config` overwrites duplicates, lines 363-367). -/
def dictFind (cfg : List (String × String)) (k : String) : Option String :=
  (cfg.reverse.find? fun kv => kv.1 == k).map (fun kv => kv.2)

/-- Python `dict.get(k, d)`: the stored value when present, else the default. -/
def dictGet (cfg : List (String × String)) (k d : String) : String :=
  (dictFind cfg k).getD d

/-- Python whitespace stripped by `int()` around a decimal literal. -/
def isSpaceChar (c : Char) : Bool :=
  c == ' ' || c == '\t' || c == '\n' || c == '\r' ||
    c == Char.ofNat 11 || c == Char.ofNat 12

/-- Strip leading and trailing whitespace from a character list. -/
def pyStrip (cs : List Char) : List Char :=
  ((cs.dropWhile isSpaceChar).reverse.dropWhile isSpaceChar).reverse

/-- Digit-sequence value for Python `int()`: decimal digits with single
underscores allowed only between digits. -/
def digitsVal : Nat → List Char → Option Nat
  | acc, [] => some acc
  | _, ['_'] => none
  | acc, '_' :: c :: rest =>
    if c.isDigit then digitsVal (acc * 10 + (c.toNat - 48)) rest else none
  | acc, c :: rest =>
    if c.isDigit then digitsVal (acc * 10 + (c.toNat - 48)) rest else none

/-- Digit part of a Python decimal literal: non-empty, not starting with an
underscore. -/
def digitsPart (cs : List Char) : Option Nat :=
  match cs with
  | [] => none
  | '_' :: _ => none
  | _ => digitsVal 0 cs

/-- Python `int(s)` on an ASCII string: strip whitespace, optional sign,
decimal digits with underscore separators; `none` models `ValueError`. -/
def pyInt (s : String) : Option Int :=
  match pyStrip s.data with
  | '+' :: rest => (digitsPart rest).map (fun n => (n : Int))
  | '-' :: rest => (digitsPart rest).map (fun n => -(n : Int))
  | cs => (digitsPart cs).map (fun n => (n : Int))

/-- `generate_libvirt_xml` (lines 370-448): build the disk entries first
(lines 418-431, raising on a missing output), then parse
`memsize` — defaulting to `'1024'` when absent — via `int()` (line 434,
`ValueError` on an invalid present value), take `numvcpus` as a raw string
defaulting to `'1'` (line 436), and fill the fixed template. -/
def generate_libvirt_xml (cfg : List (String × String))
    (disks : List ConvertedDisk) : Except CErr LibvirtDomain :=
  match genDiskEntries disks 0 with
  | .error e => .error e
  | .ok entries =>
    match pyInt (dictGet cfg "memsize" "1024") with
    | none => .error .memsizeValueError
    | some m =>
      .ok { memoryKb := m * 1024, vcpus := dictGet cfg "numvcpus" "1",
            diskEntries := entries }

/-- Terminal status of one run of `main` (lines 483-559). -/
inductive RunStatus where
  /-- The success epilogue at lines 536-543. -/
  | success
  /-- `validate_input` raised (lines 18-34). -/
  | inputError
  /-- `validate_vmware_vm` returned `False` (lines 513-515). -/
  | validationFailed
  /-- The user declined the non-empty-output prompt (lines 456-458). -/
  | userAborted
  /-- A fatal exception (lines 545-559). -/
  | fatal (e : CErr)
  deriving DecidableEq

/-- Result of a run: terminal status, whether `create_output_structure`
created the output directory (line 454), and the converted disks recorded. -/
structure RunResult where
  status : RunStatus
  outputDirCreated : Bool
  disks : List ConvertedDisk
  deriving DecidableEq

/-- `validate_input` success (lines 18-34): directory exists, is a directory,
and holds at least one `.vmx` file. -/
def inputOkB (env : Env) : Bool :=
  env.inputDirExists && env.inputIsDir && !env.vmxStems.isEmpty

/-- `create_output_structure` aborts (lines 456-458) exactly when the output
directory pre-exists, is non-empty, and the user declines the prompt. -/
def dirAbortB (env : Env) : Bool :=
  env.outputDirPreexists && env.outputDirNonempty && !env.userConfirms

/-- The `main` pipeline (lines 504-543): `validate_input`,
`validate_vmware_vm`, `create_output_structure` (which creates the output
directory when it does not pre-exist), `convert_disk_images`, then
`generate_libvirt_xml` on the parsed VMX config; fatal exceptions exit with
the corresponding error. -/
def runMain (env : Env) : RunResult :=
  if !inputOkB env then ⟨.inputError, false, []⟩
  else if !validate_vmware_vm env then ⟨.validationFailed, false, []⟩
  else if dirAbortB env then ⟨.userAborted, false, []⟩
  else
    let dc := !env.outputDirPreexists
    match convert_disk_images env with
    | .error e => ⟨.fatal e, dc, []⟩
    | .ok ds =>
      match generate_libvirt_xml env.vmxConfig ds with
      | .error e => ⟨.fatal e, dc, ds⟩
      | .ok _ => ⟨.success, dc, ds⟩

/-! Concrete fixtures: files and environments used to instantiate the claims
on closed inputs. -/

/-- A benign flat data file whose every external probe succeeds: the base all
other fixtures modify. -/
def baseFile : VFile :=
  { stem := "disk", content := strBytes "flatdata",
    readable := true, strictDecodeOk := true,
    fdiskRaises := false, fdiskHasTable := true, sniff := .bootOrFs,
    infoOk := true, infoFormat := some "vmdk",
    convVmdkTagOk := true, convRawTagOk := true, convOtherTagOk := true,
    outFdiskRaises := false, outFdiskHasTable := true,
    outSniffRaises := false, outSniffDOS := false,
    outResolved := "/out/disk.qcow2", outExistsAtGen := true }

/-- A flat (monolithic) data file: no descriptor token in its header. -/
def flatF : VFile := { baseFile with stem := "disk-flat" }

/-- A plain disk descriptor: `createType` in the header, no parent hint. -/
def descF : VFile :=
  { baseFile with
      stem := "disk"
      content := strBytes "# Disk DescriptorFile version=1 createType=monolithicSparse" }

/-- A snapshot descriptor: `parentFileNameHint` inside the 512-byte header. -/
def snapF : VFile :=
  { baseFile with
      stem := "snap"
      content := strBytes
        "# Disk DescriptorFile parentFileNameHint=base.vmdk createType=twoGbMaxExtentSparse" }

/-- A descriptor whose header shows only `createType` while the parent hint
appears after byte 512 of the file. -/
def lateSnapF : VFile :=
  { baseFile with
      stem := "late"
      content := strBytes "createType=custom" ++ List.replicate 520 32 ++
        strBytes "parentFileNameHint=base.vmdk" }

/-- A disk whose detected format is `raw` and for which only the raw-tagged
conversion strategy succeeds. -/
def rawF : VFile :=
  { baseFile with
      stem := "rawdisk"
      infoFormat := some "raw"
      convVmdkTagOk := false
      convRawTagOk := true }

/-- A flat file whose source `fdisk` probe finds no partition table. -/
def noTableF : VFile :=
  { baseFile with stem := "bad", fdiskHasTable := false }

/-- A file that converts fine but whose converted image fails the
post-conversion partition-table probe without a DOS signature. -/
def unverF : VFile :=
  { baseFile with stem := "udisk", outFdiskHasTable := false }

/-- A file whose converted image fails the partition-table probe while the
sniffer reports a DOS/Windows boot sector. -/
def fixF : VFile :=
  { baseFile with
      stem := "windisk"
      outFdiskHasTable := false
      outSniffDOS := true }

/-- A benign run environment: input directory fine, one `.vmx`, empty output
directory to be created, every tool available. -/
def baseEnv : Env :=
  { inputDirExists := true, inputIsDir := true, vmxStems := ["vm"],
    vmdks := [], vmemCount := 0, vmssCount := 0,
    outputDirPreexists := false, outputDirNonempty := false,
    userConfirms := true, qemuAvailable := true, cpOk := true,
    tmpWriteOk := true, vmxConfig := [("memsize", "2048"), ("numvcpus", "2")] }

/-- Environment with a table-less disk and a `.vmem` memory-dump file
present: a suspend warning signal alongside a validation error. -/
def envC3 : Env := { baseEnv with vmdks := [noTableF], vmemCount := 1 }

/-- Environment whose single disk converts but fails verification. -/
def envC4 : Env := { baseEnv with vmdks := [unverF] }

/-- The converted-disk list the pipeline records on `envC4`. -/
def dsC4 : List ConvertedDisk :=
  match convertAll envC4 [unverF] with
  | .ok ds => ds
  | .error _ => []

/-- A config with a valid memory size, for descriptor-generation runs. -/
def cfgW : List (String × String) := [("memsize", "1024"), ("numvcpus", "2")]

/-- A converted disk whose output file still exists at generation time. -/
def d8 : ConvertedDisk :=
  { srcStem := "disk", outPath := "disk.qcow2", attempts := ["vmdk"],
    verified := true, fixEffects := [], outResolved := "/out/disk.qcow2",
    outExistsAtGen := true }

/-! Helper lemmas shared by the claim theorems. -/

/-- A non-empty list has `isEmpty = false`. -/
theorem isEmpty_false_of_ne_nil {α : Type} {l : List α} (h : l ≠ []) :
    l.isEmpty = false := by
  cases l with
  | nil => exact absurd rfl h
  | cons a as => rfl

/-- A list with a member has `isEmpty = false`. -/
theorem isEmpty_false_of_mem {α : Type} {l : List α} {x : α} (h : x ∈ l) :
    l.isEmpty = false := by
  cases l with
  | nil => cases h
  | cons a as => rfl

/-- If a token occurs at the start of a prefix of `u`, it occurs at the start
of `u`. -/
theorem leadsWith_take (tok : List Nat) :
    ∀ (u : List Nat) (k : Nat),
      leadsWith tok (u.take k) = true → leadsWith tok u = true := by
  induction tok with
  | nil => intro u k _; rfl
  | cons a as ih =>
    intro u k h
    cases u with
    | nil => rw [List.take_nil] at h; exact absurd h (by simp [leadsWith])
    | cons b bs =>
      cases k with
      | zero => exact absurd h (by simp [leadsWith])
      | succ k2 =>
        rw [List.take_succ_cons] at h
        simp only [leadsWith, Bool.and_eq_true] at h ⊢
        exact ⟨h.1, ih bs k2 h.2⟩

/-- If a token occurs inside a prefix of `l`, it occurs inside `l`: the
substring checks on the 512-byte header carry over to the full file. -/
theorem tokIn_take (tok : List Nat) :
    ∀ (l : List Nat) (n : Nat),
      tokIn tok (l.take n) = true → tokIn tok l = true := by
  intro l
  induction l with
  | nil => intro n h; rwa [List.take_nil] at h
  | cons b bs ih =>
    intro n h
    cases n with
    | zero =>
      have htok : tok = [] := by
        rw [List.take_zero] at h
        simpa [tokIn, List.isEmpty_iff] using h
      subst htok
      simp [tokIn, leadsWith]
    | succ n2 =>
      rw [List.take_succ_cons] at h
      simp only [tokIn, Bool.or_eq_true] at h ⊢
      rcases h with h | h
      · exact Or.inl (leadsWith_take tok (b :: bs) (n2 + 1)
          (by rwa [List.take_succ_cons]))
      · exact Or.inr (ih n2 h)

/-- Unfolding of the target selector on a non-empty `.vmdk` list. -/
theorem targets_unfold (vmdks : List VFile) (hne : vmdks.isEmpty = false) :
    get_disk_conversion_targets vmdks =
      (let descs := vmdks.filter classifyDesc
       let targets :=
         if descs.isEmpty then vmdks.filter (fun f => !classifyDesc f)
         else descs.filter (fun d => d.readable && !tokIn parentHintTok d.content)
       if targets.isEmpty then .error .noConvertibleDisks else .ok targets) := by
  simp [get_disk_conversion_targets, identify_disk_structure, hne]

/-- The conversion loop fails only with `ConversionFailed`. -/
theorem convertOne_error (env : Env) (f : VFile) (e : CErr)
    (h : convertOne env f = .error e) : e = .conversionFailed := by
  unfold convertOne at h
  cases hi : f.infoOk with
  | false =>
    rw [hi] at h
    simp only [Bool.not_false, if_true] at h
    exact (Except.error.inj h).symm
  | true =>
    rw [hi] at h
    simp only [Bool.not_true, Bool.false_eq_true, if_false] at h
    cases hca : convAttempts f with
    | none =>
      rw [hca] at h
      exact (Except.error.inj h).symm
    | some atts =>
      rw [hca] at h
      exact absurd h (by simp)

/-- If some member of the target list fails both attempts of the raw strategy,
the whole conversion loop fails with `ConversionFailed`. -/
theorem convertAll_fail (env : Env) (f : VFile)
    (h1 : f.infoOk = true) (h2 : f.infoFormat.getD "vmdk" = "raw")
    (h3 : f.convVmdkTagOk = false) (h4 : f.convRawTagOk = false) :
    ∀ ts : List VFile, f ∈ ts →
      convertAll env ts = .error .conversionFailed := by
  intro ts
  induction ts with
  | nil => intro hmem; cases hmem
  | cons g rest ih =>
    intro hmem
    rcases List.mem_cons.mp hmem with heq | hmem2
    · subst heq
      have hone : convertOne env f = .error .conversionFailed := by
        simp [convertOne, convAttempts, rawAttempts, convOkTag, h1, h2, h3, h4]
      simp [convertAll, hone]
    · cases hg : convertOne env g with
      | error e =>
        have he := convertOne_error env g e hg
        subst he
        simp [convertAll, hg]
      | ok d =>
        have hr := ih hmem2
        simp [convertAll, hg, hr]

/-- Once input validation, VM validation and the output-directory prompt have
passed, `main` is the conversion stage followed by XML generation. -/
theorem runMain_conv (env : Env) (h1 : inputOkB env = true)
    (h2 : validate_vmware_vm env = true) (h3 : dirAbortB env = false) :
    runMain env =
      (match convert_disk_images env with
       | .error e => ⟨.fatal e, !env.outputDirPreexists, []⟩
       | .ok ds =>
         match generate_libvirt_xml env.vmxConfig ds with
         | .error e => ⟨.fatal e, !env.outputDirPreexists, ds⟩
         | .ok _ => ⟨.success, !env.outputDirPreexists, ds⟩) := by
  simp [runMain, h1, h2, h3]

/-- The disk-XML loop on a list of still-existing outputs: one entry per disk,
device letter `chr(97 + index)`, resolved output path as source. -/
theorem genDiskEntries_ok :
    ∀ (disks : List ConvertedDisk) (i : Nat),
      (∀ d ∈ disks, d.outExistsAtGen = true) →
      ∃ es, genDiskEntries disks i = .ok es ∧ es.length = disks.length ∧
        ∀ j d, disks.get? j = some d →
          es.get? j = some { dev := "hd".push (Char.ofNat (97 + (i + j))),
                             sourceFile := d.outResolved } := by
  intro disks
  induction disks with
  | nil =>
    intro i _
    refine ⟨[], rfl, rfl, ?_⟩
    intro j d hj
    cases j <;> cases hj
  | cons d rest ih =>
    intro i hall
    have hd := hall d (List.mem_cons_self d rest)
    obtain ⟨es, hes, hlen, hget⟩ :=
      ih (i + 1) (fun x hx => hall x (List.mem_cons_of_mem d hx))
    refine ⟨{ dev := "hd".push (Char.ofNat (97 + i)),
              sourceFile := d.outResolved } :: es, ?_, ?_, ?_⟩
    · simp [genDiskEntries, hd, hes]
    · simp [hlen]
    · intro j x hj
      cases j with
      | zero =>
        have hx : d = x := by simpa using hj
        subst hx
        simp
      | succ j2 =>
        have hj2 : rest.get? j2 = some x := by simpa using hj
        have hg := hget j2 x hj2
        have harith : i + 1 + j2 = i + (j2 + 1) := by omega
        rw [harith] at hg
        simpa using hg

/-- The disk-XML loop fails with the path-missing error whenever some output
no longer exists. -/
theorem genDiskEntries_missing :
    ∀ (disks : List ConvertedDisk) (i : Nat),
      (∃ d ∈ disks, d.outExistsAtGen = false) →
      genDiskEntries disks i = .error .diskPathMissing := by
  intro disks
  induction disks with
  | nil =>
    intro i h
    obtain ⟨d, hd, _⟩ := h
    cases hd
  | cons d rest ih =>
    intro i h
    cases hde : d.outExistsAtGen with
    | false => simp [genDiskEntries, hde]
    | true =>
      obtain ⟨x, hx, hxf⟩ := h
      rcases List.mem_cons.mp hx with heq | hx2
      · subst heq; rw [hde] at hxf; cases hxf
      · have h2 := ih (i + 1) ⟨x, hx2, hxf⟩
        simp [genDiskEntries, hde, h2]

/-! Claim theorems. -/

/-- C1 (counterexample): a directory holding one snapshot descriptor (the
parent hint in its header and full text) and one flat file contains no
non-snapshot descriptor, yet the selector raises `NoConvertibleDisks` instead
of returning the flat files — refuting the claimed fallback. -/
theorem claim_C1_counterexample :
    classifyDesc snapF = true ∧ tokIn parentHintTok snapF.content = true ∧
    classifyDesc flatF = false ∧
    get_disk_conversion_targets [snapF, flatF] = .error .noConvertibleDisks := by
  refine ⟨by decide, by decide, by decide, by decide⟩

/-- C1 (amended): the flat-file fallback fires only when the classifier put no
file at all into the descriptor bucket; when the bucket is non-empty but every
descriptor in it is a snapshot, selection fails with `NoConvertibleDisks`
even if flat files exist. -/
theorem claim_C1_amended (vmdks : List VFile) (hne : vmdks ≠ []) :
    (vmdks.filter classifyDesc = [] →
      vmdks.filter (fun f => !classifyDesc f) ≠ [] →
      get_disk_conversion_targets vmdks =
        .ok (vmdks.filter (fun f => !classifyDesc f))) ∧
    (vmdks.filter classifyDesc ≠ [] →
      (∀ d ∈ vmdks.filter classifyDesc, tokIn parentHintTok d.content = true) →
      get_disk_conversion_targets vmdks = .error .noConvertibleDisks) := by
  have hne2 : vmdks.isEmpty = false := isEmpty_false_of_ne_nil hne
  rw [targets_unfold vmdks hne2]
  constructor
  · intro hdesc hdata
    have h1 : (vmdks.filter classifyDesc).isEmpty = true := by
      rw [hdesc]; rfl
    have h2 : (vmdks.filter (fun f => !classifyDesc f)).isEmpty = false :=
      isEmpty_false_of_ne_nil hdata
    simp [h1, h2]
  · intro hdesc hall
    have h1 : (vmdks.filter classifyDesc).isEmpty = false :=
      isEmpty_false_of_ne_nil hdesc
    have h2 : (vmdks.filter classifyDesc).filter
        (fun d => d.readable && !tokIn parentHintTok d.content) = [] := by
      rw [List.filter_eq_nil_iff]
      intro d hd
      simp [hall d hd]
    simp [h1, h2]

/-- C1 (witness): a lone flat file is selected via the fallback; a lone
snapshot descriptor makes selection fail. -/
theorem claim_C1_witness :
    get_disk_conversion_targets [flatF] = .ok [flatF] ∧
    get_disk_conversion_targets [snapF] = .error .noConvertibleDisks := by
  constructor
  · have h := (claim_C1_amended [flatF] (by decide)).1 (by decide) (by decide)
    rwa [show [flatF].filter (fun f => !classifyDesc f) = [flatF] by decide] at h
  · exact (claim_C1_amended [snapF] (by decide)).2 (by decide) (by decide)

/-- C2 (counterexample): on a directory with a `.vmx` file but zero `.vmdk`
files, the run does abort with the discovery failure, but only after the
output directory has been created — refuting "before the output directory is
created". -/
theorem claim_C2_counterexample :
    (runMain baseEnv).status = .fatal .discoveryFailure ∧
    (runMain baseEnv).outputDirCreated = true := by
  refine ⟨by decide, by decide⟩

/-- C2 (amended): with no `.vmdk` files the run aborts with the discovery
failure, but only inside the conversion stage — after `create_output_structure`
has already created the output directory (whenever it did not pre-exist) —
because the `.vmdk` glob runs after the output-side mutation, not before. -/
theorem claim_C2_amended (env : Env) (h1 : inputOkB env = true)
    (hv : env.vmdks = []) (h3 : dirAbortB env = false)
    (hq : env.qemuAvailable = true) :
    runMain env = ⟨.fatal .discoveryFailure, !env.outputDirPreexists, []⟩ := by
  have h2 : validate_vmware_vm env = true := by
    simp [validate_vmware_vm, hv]
  have hc : convert_disk_images env = .error .discoveryFailure := by
    simp [convert_disk_images, hq, get_disk_conversion_targets,
      identify_disk_structure, hv]
  rw [runMain_conv env h1 h2 h3, hc]

/-- C2 (witness): the amended statement at the concrete no-`.vmdk`
environment; the output directory did not pre-exist and got created. -/
theorem claim_C2_witness :
    runMain baseEnv = ⟨.fatal .discoveryFailure, true, []⟩ := by
  rw [claim_C2_amended baseEnv (by decide) (by decide) (by decide) (by decide)]
  decide

/-- C3 (counterexample): a `.vmem` memory-dump file is present (a suspend
warning signal), yet the table-less disk still makes validation return
`False` and the run abort — refuting "the absence of a partition table is
excused and the run proceeds". -/
theorem claim_C3_counterexample :
    suspendSignals envC3 = true ∧ hasWarnings envC3 = true ∧
    validate_vmware_vm envC3 = false ∧
    (runMain envC3).status = .validationFailed := by
  refine ⟨by decide, by decide, by decide, by decide⟩

/-- C3 (amended): pre-conversion validation aborts the run (before the output
directory or any conversion) exactly when some `.vmdk` whose `fdisk` probe ran
shows no partition table and does not look like a split-disk descriptor;
memory-dump or snapshot-state warning signals play no role in the decision
and do not excuse a missing partition table. -/
theorem claim_C3_amended (env : Env) :
    (validate_vmware_vm env = false ↔
      ∃ f ∈ env.vmdks, isValidationError f = true) ∧
    (inputOkB env = true → validate_vmware_vm env = false →
      runMain env = ⟨.validationFailed, false, []⟩) := by
  constructor
  · simp [validate_vmware_vm, List.any_eq_true]
  · intro h1 h2
    simp [runMain, h1, h2]

/-- C3 (witness): the amended statement applied to the concrete environment
with a suspend signal and a table-less disk. -/
theorem claim_C3_witness :
    runMain envC3 = ⟨.validationFailed, false, []⟩ := by
  exact (claim_C3_amended envC3).2 (by decide) (by decide)

/-- C4 (counterexample): a run whose single converted disk fails every
verification check still terminates with the plain success status — `main`
has no "completed with warnings" terminal status and surfaces no collected
warning list, refuting the downgrade half of the claim. -/
theorem claim_C4_counterexample :
    (runMain envC4).status = .success ∧
    (runMain envC4).disks ≠ [] ∧
    (runMain envC4).disks.all (fun d => !d.verified) = true := by
  refine ⟨by decide, by decide, by decide⟩

/-- C4 (amended): post-conversion verification never raises a fatal error or
aborts the run — its boolean result is ignored at the call site — but the
terminal status is not downgraded either: whenever all conversions and the
XML generation succeed, the run reports plain success irrespective of every
disk's verification outcome, and no collected warning list exists. -/
theorem claim_C4_amended (env : Env) (ts : List VFile)
    (ds : List ConvertedDisk) (h1 : inputOkB env = true)
    (h2 : validate_vmware_vm env = true) (h3 : dirAbortB env = false)
    (hq : env.qemuAvailable = true)
    (hts : get_disk_conversion_targets env.vmdks = .ok ts)
    (hconv : convertAll env ts = .ok ds)
    (hgen : exceptIsOk (generate_libvirt_xml env.vmxConfig ds) = true) :
    runMain env = ⟨.success, !env.outputDirPreexists, ds⟩ := by
  have hc : convert_disk_images env = .ok ds := by
    simp [convert_disk_images, hq, hts, hconv]
  rw [runMain_conv env h1 h2 h3, hc]
  cases hg : generate_libvirt_xml env.vmxConfig ds with
  | error e => rw [hg] at hgen; exact absurd hgen (by simp [exceptIsOk])
  | ok dom => simp [hg]

/-- C4 (witness): the amended statement at the concrete environment whose
disk fails verification; the run still ends in plain success. -/
theorem claim_C4_witness :
    runMain envC4 = ⟨.success, true, dsC4⟩ := by
  rw [claim_C4_amended envC4 [unverF] dsC4 (by decide) (by decide) (by decide)
    (by decide) (by decide) (by decide) (by decide)]
  decide

/-- C5 (confirmed): for a target whose detected format is `raw`, conversion
tries the `vmdk`-tagged strategy first; only when that fails does it retry
once tagged `raw`; both attempts failing makes the conversion loop abort with
the fatal `ConversionFailed`, and a source where only the raw strategy
succeeds yields a `ConvertedDisk` with exactly the two recorded attempts
`vmdk` then `raw`. -/
theorem claim_C5 (env : Env) (f : VFile) (hinfo : f.infoOk = true)
    (hraw : f.infoFormat.getD "vmdk" = "raw") :
    (f.convVmdkTagOk = true →
      ∃ d, convertOne env f = .ok d ∧ d.attempts = ["vmdk"]) ∧
    (f.convVmdkTagOk = false → f.convRawTagOk = true →
      ∃ d, convertOne env f = .ok d ∧ d.attempts = ["vmdk", "raw"]) ∧
    (f.convVmdkTagOk = false → f.convRawTagOk = false →
      convertOne env f = .error .conversionFailed) ∧
    (∀ ts, f ∈ ts → f.convVmdkTagOk = false → f.convRawTagOk = false →
      convertAll env ts = .error .conversionFailed) := by
  have hok : ∀ atts, convAttempts f = some atts →
      convertOne env f = .ok
        { srcStem := f.stem, outPath := f.stem ++ ".qcow2", attempts := atts,
          verified := (verify_converted_disk env (f.stem ++ ".qcow2") f).1,
          fixEffects := (verify_converted_disk env (f.stem ++ ".qcow2") f).2,
          outResolved := f.outResolved,
          outExistsAtGen := f.outExistsAtGen } := by
    intro atts ha
    simp [convertOne, hinfo, ha]
  refine ⟨?_, ?_, ?_, ?_⟩
  · intro h
    refine ⟨_, hok ["vmdk"] ?_, rfl⟩
    simp [convAttempts, rawAttempts, convOkTag, hraw, h]
  · intro h hr
    refine ⟨_, hok ["vmdk", "raw"] ?_, rfl⟩
    simp [convAttempts, rawAttempts, convOkTag, hraw, h, hr]
  · intro h hr
    simp [convertOne, convAttempts, rawAttempts, convOkTag, hinfo, hraw, h, hr]
  · intro ts hmem h hr
    exact convertAll_fail env f hinfo hraw h hr ts hmem

/-- C5 (witness): the only-raw-succeeds source yields a converted disk whose
recorded attempts are exactly `vmdk` then `raw`. -/
theorem claim_C5_witness :
    ∃ d, convertOne baseEnv rawF = .ok d ∧ d.attempts = ["vmdk", "raw"] := by
  exact (claim_C5 baseEnv rawF (by decide) (by decide)).2.1 (by decide)
    (by decide)

/-- C6 (confirmed): every readable disk-container file whose first 512 bytes
contain `parentFileNameHint` is classified into the snapshot-descriptor
bucket, and the target selector never includes it in any successful
conversion-target set. -/
theorem claim_C6 (vmdks : List VFile) (f : VFile) (ts : List VFile)
    (hmem : f ∈ vmdks) (hr : f.readable = true)
    (hhint : tokIn parentHintTok (hdr f) = true)
    (hok : get_disk_conversion_targets vmdks = .ok ts) :
    classifyDesc f = true ∧ f ∉ ts := by
  have hcls : classifyDesc f = true := by
    simp [classifyDesc, hr, hhint]
  refine ⟨hcls, ?_⟩
  have hcontent : tokIn parentHintTok f.content = true :=
    tokIn_take parentHintTok f.content 512 hhint
  have hdesc : f ∈ vmdks.filter classifyDesc :=
    List.mem_filter.mpr ⟨hmem, hcls⟩
  have hdne : (vmdks.filter classifyDesc).isEmpty = false :=
    isEmpty_false_of_mem hdesc
  have hvne : vmdks.isEmpty = false := isEmpty_false_of_mem hmem
  rw [targets_unfold vmdks hvne] at hok
  simp only [hdne, Bool.false_eq_true, if_false] at hok
  cases hcase : ((vmdks.filter classifyDesc).filter
      (fun d => d.readable && !tokIn parentHintTok d.content)).isEmpty with
  | true => rw [hcase] at hok; exact absurd hok (by simp)
  | false =>
    rw [hcase] at hok
    simp only [if_false, Bool.false_eq_true] at hok
    have hts : ts = (vmdks.filter classifyDesc).filter
        (fun d => d.readable && !tokIn parentHintTok d.content) :=
      (Except.ok.inj hok).symm
    subst hts
    intro hin
    have hp := (List.mem_filter.mp hin).2
    rw [hcontent] at hp
    simp at hp

/-- C6 (witness): with a snapshot descriptor next to a plain descriptor, the
selector returns only the plain descriptor and the snapshot is excluded. -/
theorem claim_C6_witness :
    classifyDesc snapF = true ∧ snapF ∉ [descF] := by
  exact claim_C6 [snapF, descF] snapF [descF] (by decide) (by decide)
    (by decide) (by decide)

/-- C9 (confirmed): a readable file classified as a descriptor from its header
(`createType` present, parent hint absent from the first 512 bytes) is still
excluded from every successful target set when `parentFileNameHint` appears
anywhere in its full content — snapshot exclusion is decided on the full text
re-read, not on the 512-byte classification buffer. -/
theorem claim_C9 (vmdks : List VFile) (f : VFile) (ts : List VFile)
    (hmem : f ∈ vmdks) (hr : f.readable = true)
    (hcreate : tokIn createTypeTok (hdr f) = true)
    (_hnohdr : tokIn parentHintTok (hdr f) = false)
    (hfull : tokIn parentHintTok f.content = true)
    (hok : get_disk_conversion_targets vmdks = .ok ts) :
    classifyDesc f = true ∧ f ∉ ts := by
  have hcls : classifyDesc f = true := by
    simp [classifyDesc, hr, hcreate]
  refine ⟨hcls, ?_⟩
  have hdesc : f ∈ vmdks.filter classifyDesc :=
    List.mem_filter.mpr ⟨hmem, hcls⟩
  have hdne : (vmdks.filter classifyDesc).isEmpty = false :=
    isEmpty_false_of_mem hdesc
  have hvne : vmdks.isEmpty = false := isEmpty_false_of_mem hmem
  rw [targets_unfold vmdks hvne] at hok
  simp only [hdne, Bool.false_eq_true, if_false] at hok
  cases hcase : ((vmdks.filter classifyDesc).filter
      (fun d => d.readable && !tokIn parentHintTok d.content)).isEmpty with
  | true => rw [hcase] at hok; exact absurd hok (by simp)
  | false =>
    rw [hcase] at hok
    simp only [if_false, Bool.false_eq_true] at hok
    have hts : ts = (vmdks.filter classifyDesc).filter
        (fun d => d.readable && !tokIn parentHintTok d.content) :=
      (Except.ok.inj hok).symm
    subst hts
    intro hin
    have hp := (List.mem_filter.mp hin).2
    rw [hfull] at hp
    simp at hp

set_option maxRecDepth 100000 in
/-- C9 (witness): a descriptor whose parent hint appears only after byte 512
is classified as a descriptor yet excluded from the target set. -/
theorem claim_C9_witness :
    classifyDesc lateSnapF = true ∧ lateSnapF ∉ [descF] := by
  exact claim_C9 [lateSnapF, descF] lateSnapF [descF] (by decide) (by decide)
    (by decide) (by decide) (by decide) (by decide)

/-- C7 (confirmed): when the post-conversion partition-table probe fails and
the sniffer reports a DOS/Windows boot sector (with the backup `cp` and the
advisory script write succeeding), the fix path copies the image to the
`.backup` path alongside it and emits advisory messages; its effect trace is
exactly the probe, the backup copy, the `/tmp` script write and echoes — no
effect writes to the converted image itself and no partition-table rewriting
command is ever attempted. -/
theorem claim_C7 (env : Env) (p : String) (f : VFile)
    (h1 : f.outFdiskRaises = false) (h2 : f.outFdiskHasTable = false)
    (h3 : f.outSniffRaises = false) (h4 : f.outSniffDOS = true)
    (h5 : env.cpOk = true) (h6 : env.tmpWriteOk = true)
    (h7 : p ≠ "/tmp/testdisk_script.txt") :
    (verify_converted_disk env p f).2 =
      [.echoMsg "attemptingRepair", .sniffCmd p, .echoMsg "dosDetected",
       .copyFile p (p ++ ".backup"), .writeFile "/tmp/testdisk_script.txt",
       .echoMsg "manualRepairNeeded", .echoMsg "backupAt",
       .echoMsg "suggestTools"] ∧
    FixEffect.copyFile p (p ++ ".backup") ∈ (verify_converted_disk env p f).2 ∧
    (∀ e ∈ (verify_converted_disk env p f).2, writesPath e p = false) ∧
    (verify_converted_disk env p f).1 = false := by
  have heff : verify_converted_disk env p f =
      (false,
       [.echoMsg "attemptingRepair", .sniffCmd p, .echoMsg "dosDetected",
        .copyFile p (p ++ ".backup"), .writeFile "/tmp/testdisk_script.txt",
        .echoMsg "manualRepairNeeded", .echoMsg "backupAt",
        .echoMsg "suggestTools"]) := by
    simp [verify_converted_disk, attempt_boot_sector_fix, h1, h2, h3, h4,
      h5, h6]
  rw [heff]
  have hbackup : p ++ ".backup" ≠ p := by
    intro hc
    have hlen := congrArg String.length hc
    rw [String.length_append] at hlen
    have hbl : (".backup" : String).length = 7 := rfl
    rw [hbl] at hlen
    omega
  refine ⟨rfl, by simp, ?_, rfl⟩
  intro e he
  simp only [List.mem_cons, List.not_mem_nil, or_false] at he
  rcases he with rfl | rfl | rfl | rfl | rfl | rfl | rfl | rfl
  · rfl
  · rfl
  · rfl
  · simpa [writesPath] using hbackup
  · simpa [writesPath] using fun hc => h7 hc.symm
  · rfl
  · rfl
  · rfl

/-- C7 (witness): the fix path on a concrete DOS-signature image creates the
`.backup` copy alongside the image. -/
theorem claim_C7_witness :
    FixEffect.copyFile "windisk.qcow2" "windisk.qcow2.backup" ∈
      (verify_converted_disk baseEnv "windisk.qcow2" fixF).2 := by
  exact (claim_C7 baseEnv "windisk.qcow2" fixF (by decide) (by decide)
    (by decide) (by decide) (by decide) (by decide) (by decide)).2.1

/-- C8 (confirmed): descriptor generation emits one disk entry per
`ConvertedDisk` in list order, assigns device names sequentially from letter
code 97 (`hda`, `hdb`, …), references each converted image by its resolved
filesystem path, and fails with `DiskPathMissing` when any referenced output
no longer exists at generation time. -/
theorem claim_C8 (cfg : List (String × String)) (disks : List ConvertedDisk)
    (m : Int) (hm : pyInt (dictGet cfg "memsize" "1024") = some m) :
    ((∀ d ∈ disks, d.outExistsAtGen = true) →
      ∃ dom, generate_libvirt_xml cfg disks = .ok dom ∧
        dom.diskEntries.length = disks.length ∧
        ∀ j d, disks.get? j = some d →
          dom.diskEntries.get? j =
            some { dev := "hd".push (Char.ofNat (97 + j)),
                   sourceFile := d.outResolved }) ∧
    ((∃ d ∈ disks, d.outExistsAtGen = false) →
      generate_libvirt_xml cfg disks = .error .diskPathMissing) := by
  constructor
  · intro hall
    obtain ⟨es, hes, hlen, hget⟩ := genDiskEntries_ok disks 0 hall
    have hgen : generate_libvirt_xml cfg disks =
        .ok { memoryKb := m * 1024, vcpus := dictGet cfg "numvcpus" "1",
              diskEntries := es } := by
      simp [generate_libvirt_xml, hes, hm]
    refine ⟨_, hgen, hlen, ?_⟩
    intro j d hj
    have hg := hget j d hj
    simpa using hg
  · intro hmiss
    have h := genDiskEntries_missing disks 0 hmiss
    simp [generate_libvirt_xml, h]

/-- C8 (witness): one existing converted disk yields exactly one entry, the
device is `hda` and the source is the resolved path; a vanished output makes
generation fail with the path-missing error. -/
theorem claim_C8_witness :
    (∃ dom, generate_libvirt_xml cfgW [d8] = .ok dom ∧
      dom.diskEntries.length = 1 ∧
      dom.diskEntries.get? 0 =
        some { dev := "hda", sourceFile := "/out/disk.qcow2" }) ∧
    generate_libvirt_xml cfgW [{ d8 with outExistsAtGen := false }] =
      .error .diskPathMissing := by
  constructor
  · obtain ⟨dom, h1, h2, h3⟩ :=
      (claim_C8 cfgW [d8] 1024 (by decide)).1 (by decide)
    refine ⟨dom, h1, by simpa using h2, ?_⟩
    have h4 := h3 0 d8 rfl
    exact h4
  · exact (claim_C8 cfgW [{ d8 with outExistsAtGen := false }] 1024
      (by decide)).2 ⟨_, List.mem_cons_self _ _, rfl⟩

/-- C10 (confirmed): the memory and vCPU defaults are substituted only when
the key is absent from the parsed config; a present `memsize` whose value is
not a valid decimal-integer string makes descriptor generation fail with the
`int()` `ValueError` — no 1024 default is substituted, no descriptor is
produced — and the pipeline then terminates with that fatal error. -/
theorem claim_C10 (cfg : List (String × String)) (disks : List ConvertedDisk)
    (hall : ∀ d ∈ disks, d.outExistsAtGen = true) :
    (dictFind cfg "memsize" = none → dictFind cfg "numvcpus" = none →
      ∃ dom, generate_libvirt_xml cfg disks = .ok dom ∧
        dom.memoryKb = 1024 * 1024 ∧ dom.vcpus = "1") ∧
    (∀ v, dictFind cfg "memsize" = some v → pyInt v = none →
      generate_libvirt_xml cfg disks = .error .memsizeValueError) ∧
    (∀ env ts, inputOkB env = true → validate_vmware_vm env = true →
      dirAbortB env = false → env.qemuAvailable = true →
      get_disk_conversion_targets env.vmdks = .ok ts →
      convertAll env ts = .ok disks → env.vmxConfig = cfg →
      (∃ v, dictFind cfg "memsize" = some v ∧ pyInt v = none) →
      (runMain env).status = .fatal .memsizeValueError) := by
  obtain ⟨es, hes, _, _⟩ := genDiskEntries_ok disks 0 hall
  have hmemerr : ∀ v, dictFind cfg "memsize" = some v → pyInt v = none →
      generate_libvirt_xml cfg disks = .error .memsizeValueError := by
    intro v hv hpv
    have hget : dictGet cfg "memsize" "1024" = v := by
      simp [dictGet, hv]
    simp [generate_libvirt_xml, hes, hget, hpv]
  refine ⟨?_, hmemerr, ?_⟩
  · intro hmem hcpu
    have hget : dictGet cfg "memsize" "1024" = "1024" := by
      simp [dictGet, hmem]
    have hget2 : dictGet cfg "numvcpus" "1" = "1" := by
      simp [dictGet, hcpu]
    have hpi : pyInt "1024" = some 1024 := by decide
    have hgen2 : generate_libvirt_xml cfg disks =
        .ok { memoryKb := (1024 : Int) * 1024, vcpus := "1",
              diskEntries := es } := by
      simp [generate_libvirt_xml, hes, hget, hget2, hpi]
    exact ⟨_, hgen2, rfl, rfl⟩
  · intro env ts h1 h2 h3 hq hts hconv hcfg hbad
    obtain ⟨v, hv, hpv⟩ := hbad
    have hc : convert_disk_images env = .ok disks := by
      simp [convert_disk_images, hq, hts, hconv]
    have hgen : generate_libvirt_xml env.vmxConfig disks =
        .error .memsizeValueError := by
      rw [hcfg]; exact hmemerr v hv hpv
    rw [runMain_conv env h1 h2 h3]
    simp [hc, hgen]

/-- C10 (witness): a present non-numeric `memsize` makes generation fail with
the `ValueError` instead of substituting the default; an absent key yields
the 1024 (MiB, stored as KiB) default and vCPU string `1`. -/
theorem claim_C10_witness :
    generate_libvirt_xml [("memsize", "abc")] [] = .error .memsizeValueError ∧
    ∃ dom, generate_libvirt_xml [] [] = .ok dom ∧
      dom.memoryKb = 1024 * 1024 ∧ dom.vcpus = "1" := by
  constructor
  · exact (claim_C10 [("memsize", "abc")] [] (by decide)).2.1 "abc"
      (by decide) (by decide)
  · exact (claim_C10 [] [] (by decide)).1 (by decide) (by decide)

end VmwareToVirt
